import Mathlib

/-!
Shallow embedding of the air-quality alert system (Node/Express + Mongo
backend). The embedded code:

* `services/aqiService.js`: `AQI_CATEGORIES`, `getAqiCategory`,
  `getRecommendations`, `fetchAqiData` (network boundary modelled as an
  oracle `Option ApiResponse`).
* `services/alertService.js`: `checkAirQualityAndAlert`, the recurring
  sweep over every user and each of the user's locations.
* `services/notificationService.js`: `sendPushNotification`, modelled with a
  per-token transport oracle; a failing send throws (here: returns an error).
* `routes/aqi.js` `/trend`: the aggregate computation over history records.
* `routes/alerts.js` `PUT /:id/acknowledge`: `findOneAndUpdate` setting
  `acknowledged: true`.

Numbers (AQI values, thresholds) are embedded as `ℚ`; Mongo documents become
structures; the append-only collections (`AqiHistory`, `Alert`) become lists
inside an explicit `SweepState`; a thrown JS exception becomes an
`Option String` error component, with the state reached so far kept (database
writes before the throw persist, exactly as in the JS code).
-/

namespace AirAlert

/-- One row of the `AQI_CATEGORIES` table in `services/aqiService.js`. -/
structure AqiCatEntry where
  max : ℚ
  category : String
  color : String
deriving DecidableEq, Repr

/-- The `AQI_CATEGORIES` constant of `services/aqiService.js`. -/
def AQI_CATEGORIES : List AqiCatEntry :=
  [ ⟨50, "Good", "#00E400"⟩,
    ⟨100, "Moderate", "#FFFF00"⟩,
    ⟨150, "Unhealthy for Sensitive Groups", "#FF7E00"⟩,
    ⟨200, "Unhealthy", "#FF0000"⟩,
    ⟨300, "Very Unhealthy", "#8F3F97"⟩,
    ⟨500, "Hazardous", "#7E0023"⟩ ]

/-- Result record of `getAqiCategory`: `{ category, color }`. -/
structure CategoryColor where
  category : String
  color : String
deriving DecidableEq, Repr

/-- The `for (const cat of AQI_CATEGORIES)` loop body of `getAqiCategory`:
return on the first entry whose `max` bounds the value. -/
def getAqiCategoryAux (v : ℚ) : List AqiCatEntry → CategoryColor
  | [] => ⟨"Extreme", "#7E0023"⟩
  | c :: rest => if v ≤ c.max then ⟨c.category, c.color⟩ else getAqiCategoryAux v rest

/-- `getAqiCategory` of `services/aqiService.js`. -/
def getAqiCategory (v : ℚ) : CategoryColor :=
  getAqiCategoryAux v AQI_CATEGORIES

/-- `getRecommendations` of `services/aqiService.js`: a switch on the
category string with a fallback list. -/
def getRecommendations (aqiCategory : String) : List String :=
  if aqiCategory = "Good" then
    ["Air quality is good. Enjoy outdoor activities."]
  else if aqiCategory = "Moderate" then
    [ "Air quality is acceptable.",
      "Unusually sensitive people should consider reducing prolonged outdoor exertion." ]
  else if aqiCategory = "Unhealthy for Sensitive Groups" then
    [ "People with respiratory or heart disease, the elderly and children should limit prolonged outdoor exertion.",
      "Consider moving activities indoors or rescheduling." ]
  else if aqiCategory = "Unhealthy" then
    [ "People with respiratory or heart disease, the elderly and children should avoid prolonged outdoor exertion.",
      "Everyone should limit outdoor exertion.",
      "Consider wearing masks outdoors." ]
  else if aqiCategory = "Very Unhealthy" then
    [ "Everyone should avoid outdoor physical activities.",
      "People with respiratory or heart disease, the elderly and children should remain indoors.",
      "Keep windows and doors closed.",
      "Use air purifiers if available." ]
  else if aqiCategory = "Hazardous" then
    [ "Everyone should avoid all outdoor physical activities.",
      "Remain indoors with windows and doors closed.",
      "Use air purifiers if available.",
      "Follow evacuation orders if issued by local authorities." ]
  else
    [ "Avoid all outdoor activities.",
      "Remain indoors with air purifiers if available.",
      "Follow emergency instructions from local authorities." ]

/-- Unfolding of `getAqiCategory` over the concrete six-row table. -/
theorem getAqiCategory_cases (v : ℚ) :
    getAqiCategory v =
      if v ≤ 50 then ⟨"Good", "#00E400"⟩
      else if v ≤ 100 then ⟨"Moderate", "#FFFF00"⟩
      else if v ≤ 150 then ⟨"Unhealthy for Sensitive Groups", "#FF7E00"⟩
      else if v ≤ 200 then ⟨"Unhealthy", "#FF0000"⟩
      else if v ≤ 300 then ⟨"Very Unhealthy", "#8F3F97"⟩
      else if v ≤ 500 then ⟨"Hazardous", "#7E0023"⟩
      else ⟨"Extreme", "#7E0023"⟩ := by
  simp [getAqiCategory, AQI_CATEGORIES, getAqiCategoryAux]

/-! ## Data model (`models/User.js`, `models/AqiHistory.js`, `models/Alert.js`) -/

/-- One entry of a user's `locations` array (`models/User.js`). -/
structure Location where
  name : String
  latitude : ℚ
  longitude : ℚ
  isPrimary : Bool
deriving DecidableEq, Repr

/-- `alertPreferences.notificationMethods` (`models/User.js`). -/
structure NotificationMethods where
  pushNotification : Bool
  email : Bool
deriving DecidableEq, Repr

/-- `alertPreferences` (`models/User.js`): numeric threshold plus the
enabled notification methods. -/
structure AlertPreferences where
  threshold : ℚ
  notificationMethods : NotificationMethods
deriving DecidableEq, Repr

/-- A `User` document, restricted to the fields the alert pipeline reads.
`id` stands for the Mongo `_id`. -/
structure User where
  id : ℕ
  locations : List Location
  alertPreferences : AlertPreferences
  deviceTokens : List String
deriving DecidableEq, Repr

/-- The normalized reading returned by `fetchAqiData`
(`{ value, category, pollutant, source }`). -/
structure AqiData where
  value : ℚ
  category : String
  pollutant : String
  source : String
deriving DecidableEq, Repr

/-- An `AqiHistory` document (`models/AqiHistory.js`). -/
structure AqiHistoryRecord where
  userId : ℕ
  location : Location
  aqi : AqiData
  recordedAt : ℕ
deriving DecidableEq, Repr

/-- An `Alert` document (`models/Alert.js`): userId, location, aqi snapshot,
message, recommendations, acknowledged flag, createdAt. `id` stands for the
Mongo `_id`. -/
structure Alert where
  id : ℕ
  userId : ℕ
  location : Location
  aqi : AqiData
  message : String
  recommendations : List String
  acknowledged : Bool
  createdAt : ℕ
deriving DecidableEq, Repr

/-! ## Reading source adapter (`fetchAqiData` in `services/aqiService.js`) -/

/-- The payload of a successful WAQI response (`data.aqi`,
`data.dominentpol`). A failed HTTP call, or a response whose `status` is not
`ok`, is modelled as `none` at the call site. -/
structure ApiResponse where
  aqi : ℚ
  dominentpol : String
deriving DecidableEq, Repr

/-- The reading record `fetchAqiData` builds from a good response:
`{ value, category, pollutant, source: 'WAQI' }`. -/
def normalizeReading (r : ApiResponse) : AqiData :=
  ⟨r.aqi, (getAqiCategory r.aqi).category, r.dominentpol, "WAQI"⟩

/-- `fetchAqiData`: on a good response build the normalized reading with
`getAqiCategory`; otherwise the function throws (here: `none`). -/
def fetchAqiData (resp : Option ApiResponse) : Option AqiData :=
  match resp with
  | none => none
  | some r => some (normalizeReading r)

/-! ## Notification dispatch and the sweep (`services/alertService.js`,
`services/notificationService.js`) -/

/-- One call to `sendPushNotification` made by the sweep: which token, for
which alert, and whether the transport (Firebase) accepted it. -/
structure PushAttempt where
  token : String
  alertId : ℕ
  ok : Bool
deriving DecidableEq, Repr

/-- The mutable world the sweep writes to: the two append-only collections,
the log of push sends, and the `_id` counter for new alerts. -/
structure SweepState where
  history : List AqiHistoryRecord
  alerts : List Alert
  pushLog : List PushAttempt
  nextAlertId : ℕ
deriving DecidableEq, Repr

/-- The external world of one sweep: the AQI provider's answer per
(user `_id`, location), and the transport outcome per device token. -/
structure Env where
  fetch : ℕ → Location → Option ApiResponse
  pushOk : String → Bool

/-- The alert message built in `checkAirQualityAndAlert`. -/
def alertMessage (value : ℚ) (category : String) (name : String) : String :=
  "Air quality alert: " ++ toString value ++ " (" ++ category ++ ") in " ++ name

/-- The `for (const token of user.deviceTokens)` loop: `sendPushNotification`
per token; a rejected send throws out of the loop (`error` component `some`),
keeping the attempts made so far. -/
def sendPushLoop (env : Env) (alertId : ℕ) :
    List String → SweepState → SweepState × Option String
  | [], s => (s, none)
  | t :: rest, s =>
    let s1 : SweepState := { s with pushLog := s.pushLog ++ [⟨t, alertId, env.pushOk t⟩] }
    if env.pushOk t then
      sendPushLoop env alertId rest s1
    else
      (s1, some "Error sending notification")

/-- The body of the per-(user, location) iteration in
`checkAirQualityAndAlert`: fetch, store history, compare against the user's
threshold, create the alert and push it. A throw anywhere surfaces as
`some error`, with completed database writes kept. -/
def processPair (env : Env) (now : ℕ) (user : User) (loc : Location)
    (s : SweepState) : SweepState × Option String :=
  match fetchAqiData (env.fetch user.id loc) with
  | none => (s, some "Error fetching AQI data")
  | some aqiData =>
    let s1 : SweepState :=
      { s with history := s.history ++ [⟨user.id, loc, aqiData, now⟩] }
    if user.alertPreferences.threshold ≤ aqiData.value then
      let category := (getAqiCategory aqiData.value).category
      let recommendations := getRecommendations category
      let alertId := s1.nextAlertId
      let alert : Alert :=
        ⟨alertId, user.id, loc, aqiData,
          alertMessage aqiData.value category loc.name, recommendations, false, now⟩
      let s2 : SweepState :=
        { s1 with alerts := s1.alerts ++ [alert], nextAlertId := alertId + 1 }
      if user.alertPreferences.notificationMethods.pushNotification
          && decide (0 < user.deviceTokens.length) then
        sendPushLoop env alertId user.deviceTokens s2
      else
        (s2, none)
    else
      (s1, none)

/-- The inner `for (const location of user.locations)` loop. The JS loop has
no try/catch, so a throw in one iteration ends the whole sweep. -/
def processLocations (env : Env) (now : ℕ) (user : User) :
    List Location → SweepState → SweepState × Option String
  | [], s => (s, none)
  | loc :: rest, s =>
    match processPair env now user loc s with
    | (s1, some e) => (s1, some e)
    | (s1, none) => processLocations env now user rest s1

/-- The outer `for (const user of users)` loop. -/
def processUsers (env : Env) (now : ℕ) :
    List User → SweepState → SweepState × Option String
  | [], s => (s, none)
  | user :: rest, s =>
    match processLocations env now user user.locations s with
    | (s1, some e) => (s1, some e)
    | (s1, none) => processUsers env now rest s1

/-- `checkAirQualityAndAlert` of `services/alertService.js`: one sweep over
every user and each of the user's locations. The surrounding try/catch logs
and rethrows, so the error component is passed through unchanged. -/
def checkAirQualityAndAlert (env : Env) (now : ℕ) (users : List User)
    (s : SweepState) : SweepState × Option String :=
  processUsers env now users s

/-! ## Trend aggregation (`routes/aqi.js`, `GET /trend`) -/

/-- One element pushed onto `trends.dataPoints`. -/
structure DataPoint where
  date : ℕ
  value : ℚ
  category : String
deriving DecidableEq, Repr

/-- The `trends` object of the `/trend` route. `minAqi` starts at the float
`Infinity`, embedded as `⊤ : WithTop ℚ`; `Math.min(Infinity, x) = x` becomes
`min ⊤ x = x`. -/
structure Trends where
  averageAqi : ℚ
  maxAqi : ℚ
  minAqi : WithTop ℚ
  dataPoints : List DataPoint
deriving DecidableEq, Repr

/-- `Math.min(m, w)` where the accumulator `m` may still be the `Infinity`
sentinel and `w` is a finite reading value. -/
def minWT (m : WithTop ℚ) (w : ℚ) : WithTop ℚ :=
  min m (w : WithTop ℚ)

/-- The body of `data.forEach(point => ...)` in the `/trend` route, run over
the accumulator `(totalAqi, trends)`. -/
def trendStep (acc : ℚ × Trends) (point : AqiHistoryRecord) : ℚ × Trends :=
  ( acc.1 + point.aqi.value,
    { acc.2 with
        maxAqi := max acc.2.maxAqi point.aqi.value,
        minAqi := minWT acc.2.minAqi point.aqi.value,
        dataPoints :=
          acc.2.dataPoints ++ [⟨point.recordedAt, point.aqi.value, point.aqi.category⟩] } )

/-- The trend aggregation of `routes/aqi.js`: initialize
`{averageAqi: 0, maxAqi: 0, minAqi: Infinity, dataPoints: []}`, and when the
fetched data is non-empty fold the `forEach` body over it and divide the
total by the count. -/
def computeTrends (data : List AqiHistoryRecord) : Trends :=
  let trends : Trends := ⟨0, 0, ⊤, []⟩
  if 0 < data.length then
    let acc := data.foldl trendStep (0, trends)
    { acc.2 with averageAqi := acc.1 / (data.length : ℚ) }
  else
    trends

/-! ## Acknowledge route (`routes/alerts.js`, `PUT /:id/acknowledge`) -/

/-- `Alert.findOneAndUpdate({ _id: alertId, userId }, { acknowledged: true },
{ new: true })`: update the first document matching both the alert `_id` and
the requesting user's `_id`, returning the updated document, or `none` when
no document matches (the route then answers 404 and nothing changes). -/
def findOneAndUpdateAck : List Alert → ℕ → ℕ → List Alert × Option Alert
  | [], _, _ => ([], none)
  | a :: rest, alertId, uid =>
    if a.id = alertId ∧ a.userId = uid then
      let updated : Alert := { a with acknowledged := true }
      (updated :: rest, some updated)
    else
      let r := findOneAndUpdateAck rest alertId uid
      (a :: r.1, r.2)

/-! ## Helper lemmas about the sweep -/

/-- The push loop only appends to the push log: the collections and the id
counter are untouched. -/
theorem sendPushLoop_frame (env : Env) (alertId : ℕ) (tokens : List String)
    (s : SweepState) :
    (sendPushLoop env alertId tokens s).1.history = s.history ∧
    (sendPushLoop env alertId tokens s).1.alerts = s.alerts ∧
    (sendPushLoop env alertId tokens s).1.nextAlertId = s.nextAlertId := by
  induction tokens generalizing s with
  | nil => exact ⟨rfl, rfl, rfl⟩
  | cons t rest ih =>
    simp only [sendPushLoop]
    split_ifs with h
    · exact ih _
    · exact ⟨rfl, rfl, rfl⟩

/-- A pair whose fetch succeeds appends exactly its normalized reading to the
history, whatever the threshold comparison and push outcomes. -/
theorem processPair_history_eq (env : Env) (now : ℕ) (user : User)
    (loc : Location) (s : SweepState) (resp : ApiResponse)
    (h : env.fetch user.id loc = some resp) :
    (processPair env now user loc s).1.history =
      s.history ++ [⟨user.id, loc, normalizeReading resp, now⟩] := by
  simp only [processPair, h, fetchAqiData]
  split_ifs with hth hpush
  · rw [(sendPushLoop_frame env _ _ _).1]
  · rfl
  · rfl

/-- A pair whose fetch succeeds with a reading at or above the user's
threshold appends exactly one alert, built from that reading. -/
theorem processPair_alerts_ge (env : Env) (now : ℕ) (user : User)
    (loc : Location) (s : SweepState) (resp : ApiResponse)
    (h : env.fetch user.id loc = some resp)
    (hth : user.alertPreferences.threshold ≤ resp.aqi) :
    (processPair env now user loc s).1.alerts =
      s.alerts ++ [⟨s.nextAlertId, user.id, loc, normalizeReading resp,
        alertMessage resp.aqi (getAqiCategory resp.aqi).category loc.name,
        getRecommendations (getAqiCategory resp.aqi).category, false, now⟩] := by
  simp only [processPair, h, fetchAqiData]
  rw [if_pos (by simpa [normalizeReading] using hth)]
  split_ifs with hpush
  · rw [(sendPushLoop_frame env _ _ _).2.1]
    simp [normalizeReading]
  · simp [normalizeReading]

/-- A pair whose fetch succeeds with a reading strictly below the user's
threshold only records history: same alerts, no error. -/
theorem processPair_below (env : Env) (now : ℕ) (user : User)
    (loc : Location) (s : SweepState) (resp : ApiResponse)
    (h : env.fetch user.id loc = some resp)
    (hlt : resp.aqi < user.alertPreferences.threshold) :
    processPair env now user loc s =
      ({ s with history := s.history ++ [⟨user.id, loc, normalizeReading resp, now⟩] },
        none) := by
  simp only [processPair, h, fetchAqiData]
  rw [if_neg (by simpa [normalizeReading] using not_le.mpr hlt)]

/-- A pair whose fetch fails changes nothing and surfaces the throw. -/
theorem processPair_fetch_none (env : Env) (now : ℕ) (user : User)
    (loc : Location) (s : SweepState) (h : env.fetch user.id loc = none) :
    processPair env now user loc s = (s, some "Error fetching AQI data") := by
  simp [processPair, h, fetchAqiData]

/-- For a single user with a single location, the state the sweep reaches is
exactly the state of that one pair's pipeline. -/
theorem sweep_single_pair (env : Env) (now : ℕ) (user : User) (loc : Location)
    (s : SweepState) (hloc : user.locations = [loc]) :
    (checkAirQualityAndAlert env now [user] s).1 =
      (processPair env now user loc s).1 := by
  simp only [checkAirQualityAndAlert, processUsers, hloc, processLocations]
  rcases hpp : processPair env now user loc s with ⟨s1, e⟩
  cases e <;> simp [processLocations, processUsers]

/-! ## Severity ranking (the ordered tier list of the data model) -/

/-- Position of a category in the ordered tier list Good < Moderate <
Unhealthy for Sensitive Groups < Unhealthy < Very Unhealthy < Hazardous <
Extreme. -/
def severityRank (c : String) : ℕ :=
  if c = "Good" then 0
  else if c = "Moderate" then 1
  else if c = "Unhealthy for Sensitive Groups" then 2
  else if c = "Unhealthy" then 3
  else if c = "Very Unhealthy" then 4
  else if c = "Hazardous" then 5
  else 6

/-- The fixed category set of the classifier. -/
def categoryTiers : List String :=
  [ "Good", "Moderate", "Unhealthy for Sensitive Groups", "Unhealthy",
    "Very Unhealthy", "Hazardous", "Extreme" ]

/-! ## Claim theorems: the classifier -/

/-- C5: `getAqiCategory` is total and deterministic on every rational input,
choosing the category of the smallest breakpoint bound that is ≥ the input
over the ordered table (Good ≤50, Moderate ≤100, Unhealthy for Sensitive
Groups ≤150, Unhealthy ≤200, Very Unhealthy ≤300, Hazardous ≤500); in
particular classify(50) = Good, classify(51) = Moderate,
classify(500) = Hazardous, and every value above 500 maps to the Extreme
overflow category rather than failing. -/
theorem getAqiCategory_total_spec :
    (∀ v : ℚ,
      (v ≤ 50 → (getAqiCategory v).category = "Good") ∧
      (50 < v → v ≤ 100 → (getAqiCategory v).category = "Moderate") ∧
      (100 < v → v ≤ 150 → (getAqiCategory v).category = "Unhealthy for Sensitive Groups") ∧
      (150 < v → v ≤ 200 → (getAqiCategory v).category = "Unhealthy") ∧
      (200 < v → v ≤ 300 → (getAqiCategory v).category = "Very Unhealthy") ∧
      (300 < v → v ≤ 500 → (getAqiCategory v).category = "Hazardous") ∧
      (500 < v → (getAqiCategory v).category = "Extreme")) ∧
    (getAqiCategory 50).category = "Good" ∧
    (getAqiCategory 51).category = "Moderate" ∧
    (getAqiCategory 500).category = "Hazardous" ∧
    (getAqiCategory 501).category = "Extreme" := by
  refine ⟨fun v => ?_, by decide, by decide, by decide, by decide⟩
  rw [getAqiCategory_cases v]
  refine ⟨fun h => ?_, fun h1 h2 => ?_, fun h1 h2 => ?_, fun h1 h2 => ?_,
    fun h1 h2 => ?_, fun h1 h2 => ?_, fun h => ?_⟩ <;>
    (split_ifs <;> first | rfl | (exfalso; linarith))

/-- Witness for C5 at concrete inputs 75 and 600. -/
theorem getAqiCategory_total_spec_witness :
    (getAqiCategory 75).category = "Moderate" ∧
    (getAqiCategory 600).category = "Extreme" :=
  ⟨(getAqiCategory_total_spec.1 75).2.1 (by norm_num) (by norm_num),
   (getAqiCategory_total_spec.1 600).2.2.2.2.2.2 (by norm_num)⟩

/-- C8: the classifier is monotone in severity rank — for all rational
v1 ≤ v2 the rank of `getAqiCategory v1` in the ordered tier list is at most
that of `getAqiCategory v2` — and every input yields exactly one category
from the fixed seven-tier set. -/
theorem getAqiCategory_monotone_rank :
    (∀ v1 v2 : ℚ, v1 ≤ v2 →
      severityRank (getAqiCategory v1).category ≤
        severityRank (getAqiCategory v2).category) ∧
    (∀ v : ℚ, (getAqiCategory v).category ∈ categoryTiers) := by
  constructor
  · intro v1 v2 h
    rw [getAqiCategory_cases v1, getAqiCategory_cases v2]
    split_ifs <;> first | decide | linarith
  · intro v
    rw [getAqiCategory_cases v]
    split_ifs <;> decide

/-- Witness for C8 at the concrete pair 40 ≤ 120. -/
theorem getAqiCategory_monotone_rank_witness :
    severityRank (getAqiCategory 40).category ≤
      severityRank (getAqiCategory 120).category ∧
    (getAqiCategory 120).category ∈ categoryTiers :=
  ⟨getAqiCategory_monotone_rank.1 40 120 (by norm_num),
   getAqiCategory_monotone_rank.2 120⟩

/-! ## Claim theorems: the sweep -/

/-- C1: for every user, location and fetched reading, the sweep body of
`checkAirQualityAndAlert` creates an alert for that (user, location) pair in
a cycle if and only if the reading's value is at or above the user's
configured threshold; when no alert is raised the outcome is a no-op
(collections unchanged but for the history append, no error), not an
error. -/
theorem threshold_alert_iff (env : Env) (now : ℕ) (user : User) (loc : Location)
    (s : SweepState) (resp : ApiResponse)
    (h : env.fetch user.id loc = some resp) :
    ((∃ a : Alert, (processPair env now user loc s).1.alerts = s.alerts ++ [a] ∧
        a.userId = user.id ∧ a.location = loc ∧ a.aqi.value = resp.aqi) ↔
      user.alertPreferences.threshold ≤ resp.aqi) ∧
    (resp.aqi < user.alertPreferences.threshold →
      (processPair env now user loc s).1.alerts = s.alerts ∧
      (processPair env now user loc s).2 = none) := by
  constructor
  · constructor
    · rintro ⟨a, ha, -⟩
      by_contra hlt
      rw [processPair_below env now user loc s resp h (not_le.mp hlt)] at ha
      simp at ha
    · intro hth
      exact ⟨_, processPair_alerts_ge env now user loc s resp h hth, rfl, rfl, rfl⟩
  · intro hlt
    rw [processPair_below env now user loc s resp h hlt]
    exact ⟨rfl, rfl⟩

def w1Loc : Location := ⟨"Home", 10, 20, true⟩

def w1User : User := ⟨1, [w1Loc], ⟨100, ⟨false, false⟩⟩, []⟩

def w1Env : Env := ⟨fun _ _ => some ⟨120, "pm25"⟩, fun _ => true⟩

/-- Witness for C1: a qualifying reading of 120 against threshold 100 raises
exactly one alert for the pair. -/
theorem threshold_alert_iff_witness :
    ∃ a : Alert,
      (processPair w1Env 0 w1User w1Loc ⟨[], [], [], 0⟩).1.alerts = [] ++ [a] ∧
      a.userId = w1User.id ∧ a.location = w1Loc ∧ a.aqi.value = 120 :=
  (threshold_alert_iff w1Env 0 w1User w1Loc ⟨[], [], [], 0⟩ ⟨120, "pm25"⟩
    rfl).1.mpr (by decide)

/-- C7: for every (user, location) pair whose fetch succeeds in a sweep,
exactly one history record is persisted for that pair in that cycle —
independently of the threshold comparison and of every alert/dispatch
outcome. -/
theorem history_recorded_once (env : Env) (now : ℕ) (user : User)
    (loc : Location) (s : SweepState) (resp : ApiResponse)
    (h : env.fetch user.id loc = some resp) :
    (processPair env now user loc s).1.history =
      s.history ++ [⟨user.id, loc, normalizeReading resp, now⟩] ∧
    (processPair env now user loc s).1.history.length = s.history.length + 1 := by
  refine ⟨processPair_history_eq env now user loc s resp h, ?_⟩
  rw [processPair_history_eq env now user loc s resp h]
  simp

def w7Loc : Location := ⟨"Office", 3, 4, false⟩

def w7User : User := ⟨2, [w7Loc], ⟨100, ⟨true, false⟩⟩, ["tok"]⟩

def w7Env : Env := ⟨fun _ _ => some ⟨42, "pm10"⟩, fun _ => true⟩

/-- Witness for C7: a reading of 42, below the threshold 100, still produces
exactly one history record. -/
theorem history_recorded_once_witness :
    (processPair w7Env 5 w7User w7Loc ⟨[], [], [], 0⟩).1.history =
      [] ++ [⟨w7User.id, w7Loc, normalizeReading ⟨42, "pm10"⟩, 5⟩] :=
  (history_recorded_once w7Env 5 w7User w7Loc ⟨[], [], [], 0⟩ ⟨42, "pm10"⟩ rfl).1

/-- C6: two consecutive sweeps over the same pair with identical fetched
readings that meet the threshold append two distinct history records (no
deduplication) and raise one alert in each cycle — repeat alerts at the same
qualifying value are not suppressed. -/
theorem repeat_cycles_no_suppression (env : Env) (t1 t2 : ℕ) (user : User)
    (loc : Location) (s0 : SweepState) (resp : ApiResponse)
    (hloc : user.locations = [loc])
    (h : env.fetch user.id loc = some resp)
    (hth : user.alertPreferences.threshold ≤ resp.aqi)
    (hne : t1 ≠ t2) :
    ∃ r1 r2 : AqiHistoryRecord,
      (checkAirQualityAndAlert env t2 [user]
          (checkAirQualityAndAlert env t1 [user] s0).1).1.history =
        s0.history ++ [r1, r2] ∧ r1 ≠ r2 ∧
      (checkAirQualityAndAlert env t1 [user] s0).1.alerts.length =
        s0.alerts.length + 1 ∧
      (checkAirQualityAndAlert env t2 [user]
          (checkAirQualityAndAlert env t1 [user] s0).1).1.alerts.length =
        s0.alerts.length + 2 := by
  have e1 : (checkAirQualityAndAlert env t1 [user] s0).1 =
      (processPair env t1 user loc s0).1 :=
    sweep_single_pair env t1 user loc s0 hloc
  have e2 : (checkAirQualityAndAlert env t2 [user]
        (checkAirQualityAndAlert env t1 [user] s0).1).1 =
      (processPair env t2 user loc (checkAirQualityAndAlert env t1 [user] s0).1).1 :=
    sweep_single_pair env t2 user loc _ hloc
  refine ⟨⟨user.id, loc, normalizeReading resp, t1⟩,
    ⟨user.id, loc, normalizeReading resp, t2⟩, ?_, ?_, ?_, ?_⟩
  · rw [e2, processPair_history_eq env t2 user loc _ resp h, e1,
      processPair_history_eq env t1 user loc s0 resp h]
    simp
  · simp [AqiHistoryRecord.mk.injEq, hne]
  · rw [e1, processPair_alerts_ge env t1 user loc s0 resp h hth]
    simp
  · rw [e2, processPair_alerts_ge env t2 user loc _ resp h hth, e1,
      processPair_alerts_ge env t1 user loc s0 resp h hth]
    simp

def w6Loc : Location := ⟨"Home", 10, 20, true⟩

def w6User : User := ⟨3, [w6Loc], ⟨100, ⟨false, false⟩⟩, []⟩

def w6Env : Env := ⟨fun _ _ => some ⟨150, "pm25"⟩, fun _ => true⟩

/-- Witness for C6: two cycles at reading 150 against threshold 100 append
two distinct history records and two alerts. -/
theorem repeat_cycles_no_suppression_witness :
    ∃ r1 r2 : AqiHistoryRecord,
      (checkAirQualityAndAlert w6Env 1 [w6User]
          (checkAirQualityAndAlert w6Env 0 [w6User] ⟨[], [], [], 0⟩).1).1.history =
        ([] : List AqiHistoryRecord) ++ [r1, r2] ∧ r1 ≠ r2 ∧
      (checkAirQualityAndAlert w6Env 0 [w6User] ⟨[], [], [], 0⟩).1.alerts.length =
        ([] : List Alert).length + 1 ∧
      (checkAirQualityAndAlert w6Env 1 [w6User]
          (checkAirQualityAndAlert w6Env 0 [w6User] ⟨[], [], [], 0⟩).1).1.alerts.length =
        ([] : List Alert).length + 2 :=
  repeat_cycles_no_suppression w6Env 0 1 w6User w6Loc ⟨[], [], [], 0⟩ ⟨150, "pm25"⟩
    rfl rfl (by decide) (by decide)

/-! ## Claim theorems: failure propagation -/

def cex2LocA : Location := ⟨"A", 1, 2, true⟩

def cex2LocB : Location := ⟨"B", 3, 4, false⟩

def cex2User : User := ⟨7, [cex2LocA, cex2LocB], ⟨100, ⟨false, false⟩⟩, []⟩

def cex2Env : Env :=
  ⟨fun _ loc => if loc = cex2LocB then some ⟨120, "pm25"⟩ else none,
   fun _ => true⟩

/-- Counterexample to C2: with two locations where the first location's
fetch fails and the second location's fetch would succeed with a qualifying
reading of 120, the sweep produces no history record and no alert for the
second location, and the error escapes `checkAirQualityAndAlert`. -/
theorem pair_failure_not_isolated :
    cex2Env.fetch cex2User.id cex2LocB = some ⟨120, "pm25"⟩ ∧
    cex2Env.fetch cex2User.id cex2LocA = none ∧
    (checkAirQualityAndAlert cex2Env 0 [cex2User] ⟨[], [], [], 0⟩).1.history = [] ∧
    (checkAirQualityAndAlert cex2Env 0 [cex2User] ⟨[], [], [], 0⟩).1.alerts = [] ∧
    (checkAirQualityAndAlert cex2Env 0 [cex2User] ⟨[], [], [], 0⟩).2 =
      some "Error fetching AQI data" := by
  decide

/-- C2 amended: the sweep loops carry no per-pair try/catch, so a pair whose
processing throws ends the whole sweep at that point — the failing pair's
partial writes persist, the error propagates out of
`checkAirQualityAndAlert`, and no later location of that user nor any later
user is processed. -/
theorem sweep_aborts_on_pair_failure (env : Env) (now : ℕ) (user : User)
    (loc : Location) (rest : List Location) (others : List User)
    (s : SweepState) (e : String)
    (hloc : user.locations = loc :: rest)
    (h : (processPair env now user loc s).2 = some e) :
    checkAirQualityAndAlert env now (user :: others) s =
      ((processPair env now user loc s).1, some e) := by
  simp only [checkAirQualityAndAlert, processUsers, hloc, processLocations]
  rcases hpp : processPair env now user loc s with ⟨s1, e1⟩
  rw [hpp] at h
  cases e1 with
  | none => exact absurd h (by simp)
  | some e2 =>
    obtain rfl : e2 = e := by simpa using h
    rfl

def w2Loc : Location := ⟨"A", 1, 2, true⟩

def w2User : User := ⟨8, [w2Loc], ⟨100, ⟨false, false⟩⟩, []⟩

def w2Env : Env := ⟨fun _ _ => none, fun _ => true⟩

/-- Witness for the amended C2: a failing fetch on the only pair makes the
sweep return that pair's state and error. -/
theorem sweep_aborts_on_pair_failure_witness :
    checkAirQualityAndAlert w2Env 0 [w2User] ⟨[], [], [], 0⟩ =
      ((processPair w2Env 0 w2User w2Loc ⟨[], [], [], 0⟩).1,
        some "Error fetching AQI data") :=
  sweep_aborts_on_pair_failure w2Env 0 w2User w2Loc [] [] ⟨[], [], [], 0⟩
    "Error fetching AQI data" rfl (by decide)

def cex3Loc : Location := ⟨"Home", 10, 20, true⟩

def cex3User : User := ⟨1, [cex3Loc], ⟨100, ⟨true, false⟩⟩, []⟩

def cex3Env : Env := ⟨fun _ _ => some ⟨60, "pm25"⟩, fun _ => true⟩

def cex3State : SweepState :=
  ⟨[⟨1, cex3Loc, ⟨40, "Good", "pm25", "WAQI"⟩, 0⟩], [], [], 0⟩

/-- Counterexample to C3: the previous reading for the pair has category
Good (value 40) and the new reading of 60 classifies as Moderate — a
category change below the threshold 100 — yet the sweep produces no alert
at all (and no error). -/
theorem change_alert_counterexample :
    (getAqiCategory 60).category = "Moderate" ∧
    (getAqiCategory 40).category = "Good" ∧
    cex3State.history.map (fun r => r.aqi.category) = ["Good"] ∧
    (60 : ℚ) < cex3User.alertPreferences.threshold ∧
    (checkAirQualityAndAlert cex3Env 1 [cex3User] cex3State).1.alerts = [] ∧
    (checkAirQualityAndAlert cex3Env 1 [cex3User] cex3State).2 = none := by
  decide

/-- C3 amended: the decision logic never produces a change alert — it never
reads the previous reading, and whenever the new reading's value is below
the user's threshold no alert of any kind is produced, whatever the category
of any earlier reading in the history. -/
theorem no_change_alerts (env : Env) (now : ℕ) (user : User) (loc : Location)
    (s : SweepState) (resp : ApiResponse)
    (h : env.fetch user.id loc = some resp)
    (hlt : resp.aqi < user.alertPreferences.threshold) :
    (processPair env now user loc s).1.alerts = s.alerts ∧
    (processPair env now user loc s).2 = none := by
  rw [processPair_below env now user loc s resp h hlt]
  exact ⟨rfl, rfl⟩

/-- Witness for the amended C3 at the counterexample's inputs. -/
theorem no_change_alerts_witness :
    (processPair cex3Env 1 cex3User cex3Loc cex3State).1.alerts =
      cex3State.alerts ∧
    (processPair cex3Env 1 cex3User cex3Loc cex3State).2 = none :=
  no_change_alerts cex3Env 1 cex3User cex3Loc cex3State ⟨60, "pm25"⟩ rfl
    (by decide)

def cex4Loc : Location := ⟨"Home", 10, 20, true⟩

def cex4User : User := ⟨9, [cex4Loc], ⟨50, ⟨true, false⟩⟩, ["t1", "t2"]⟩

def cex4Env : Env := ⟨fun _ _ => some ⟨120, "pm25"⟩, fun t => t != "t1"⟩

/-- Counterexample to C4: with two registered device tokens where the
transport rejects the first, the dispatch records a single failed attempt
for token t1, never attempts token t2 (whose send would succeed), and the
error aborts the dispatch call and the sweep. -/
theorem token_failure_not_isolated :
    cex4Env.pushOk "t2" = true ∧
    (checkAirQualityAndAlert cex4Env 0 [cex4User] ⟨[], [], [], 0⟩).1.pushLog =
      [⟨"t1", 0, false⟩] ∧
    (checkAirQualityAndAlert cex4Env 0 [cex4User] ⟨[], [], [], 0⟩).2 =
      some "Error sending notification" := by
  decide

/-- C4 amended: a delivery failure on one device token is recorded as a
failed attempt but throws out of the token loop — the remaining tokens are
never attempted and the error propagates out of the dispatch (and the
sweep). The email branch of the dispatcher is an empty stub, so no
cross-channel attempt exists to isolate. -/
theorem push_token_failure_aborts (env : Env) (alertId : ℕ) (bad : String)
    (post : List String) (s : SweepState) (h : env.pushOk bad = false) :
    sendPushLoop env alertId (bad :: post) s =
      ({ s with pushLog := s.pushLog ++ [⟨bad, alertId, false⟩] },
        some "Error sending notification") := by
  simp [sendPushLoop, h]

/-- Witness for the amended C4: transport rejecting t1 stops the loop before
t2. -/
theorem push_token_failure_aborts_witness :
    sendPushLoop cex4Env 0 ["t1", "t2"] ⟨[], [], [], 0⟩ =
      (⟨[], [], [⟨"t1", 0, false⟩], 0⟩, some "Error sending notification") :=
  push_token_failure_aborts cex4Env 0 "t1" ["t2"] ⟨[], [], [], 0⟩ (by decide)

/-! ## Claim theorems: the acknowledge route -/

/-- Unfolding of `findOneAndUpdateAck` at a matching head document. -/
theorem findOneAndUpdateAck_cons_pos (a : Alert) (rest : List Alert)
    (alertId uid : ℕ) (hm : a.id = alertId ∧ a.userId = uid) :
    findOneAndUpdateAck (a :: rest) alertId uid =
      ({ a with acknowledged := true } :: rest,
        some { a with acknowledged := true }) := by
  simp [findOneAndUpdateAck, hm]

/-- Unfolding of `findOneAndUpdateAck` at a non-matching head document. -/
theorem findOneAndUpdateAck_cons_neg (a : Alert) (rest : List Alert)
    (alertId uid : ℕ) (hm : ¬(a.id = alertId ∧ a.userId = uid)) :
    findOneAndUpdateAck (a :: rest) alertId uid =
      (a :: (findOneAndUpdateAck rest alertId uid).1,
        (findOneAndUpdateAck rest alertId uid).2) := by
  simp [findOneAndUpdateAck, hm]

/-- C9: when the acknowledge route's `findOneAndUpdate` matches an alert
owned by the requesting user, the returned document has `acknowledged`
set to true and every other field unchanged; in the stored list only that
one document changes, and only in its `acknowledged` field. -/
theorem acknowledge_sets_only_ack (alerts : List Alert) (alertId uid : ℕ)
    (a' : Alert) (h : (findOneAndUpdateAck alerts alertId uid).2 = some a') :
    a'.acknowledged = true ∧
    ∃ (pre post : List Alert) (a : Alert), alerts = pre ++ a :: post ∧
      a.id = alertId ∧ a.userId = uid ∧
      (findOneAndUpdateAck alerts alertId uid).1 =
        pre ++ { a with acknowledged := true } :: post ∧
      a'.id = a.id ∧ a'.userId = a.userId ∧ a'.location = a.location ∧
      a'.aqi = a.aqi ∧ a'.message = a.message ∧
      a'.recommendations = a.recommendations ∧ a'.createdAt = a.createdAt := by
  induction alerts with
  | nil => simp [findOneAndUpdateAck] at h
  | cons a rest ih =>
    by_cases hm : a.id = alertId ∧ a.userId = uid
    · rw [findOneAndUpdateAck_cons_pos a rest alertId uid hm] at h ⊢
      obtain rfl : ({ a with acknowledged := true } : Alert) = a' := by
        simpa using h
      exact ⟨rfl, [], rest, a, rfl, hm.1, hm.2, rfl, rfl, rfl, rfl, rfl, rfl,
        rfl, rfl⟩
    · rw [findOneAndUpdateAck_cons_neg a rest alertId uid hm] at h ⊢
      obtain ⟨hack, pre, post, b, hdec, hid, huid, hupd, hfields⟩ :=
        ih (by simpa using h)
      exact ⟨hack, a :: pre, post, b, by simp [hdec], hid, huid,
        by simp [hupd], hfields⟩

def w9Alert : Alert :=
  ⟨5, 2, ⟨"L", 0, 0, false⟩, ⟨180, "Unhealthy", "pm25", "WAQI"⟩, "msg",
    ["stay indoors"], false, 3⟩

/-- Witness for C9 on a one-element store. -/
theorem acknowledge_sets_only_ack_witness :
    ({ w9Alert with acknowledged := true } : Alert).acknowledged = true ∧
    ∃ (pre post : List Alert) (a : Alert), [w9Alert] = pre ++ a :: post ∧
      a.id = 5 ∧ a.userId = 2 ∧
      (findOneAndUpdateAck [w9Alert] 5 2).1 =
        pre ++ { a with acknowledged := true } :: post ∧
      ({ w9Alert with acknowledged := true } : Alert).id = a.id ∧
      ({ w9Alert with acknowledged := true } : Alert).userId = a.userId ∧
      ({ w9Alert with acknowledged := true } : Alert).location = a.location ∧
      ({ w9Alert with acknowledged := true } : Alert).aqi = a.aqi ∧
      ({ w9Alert with acknowledged := true } : Alert).message = a.message ∧
      ({ w9Alert with acknowledged := true } : Alert).recommendations =
        a.recommendations ∧
      ({ w9Alert with acknowledged := true } : Alert).createdAt = a.createdAt :=
  acknowledge_sets_only_ack [w9Alert] 5 2 { w9Alert with acknowledged := true }
    (by decide)

/-! ## Claim theorems: trend aggregation -/

/-- The trend `forEach` in closed form: total of the values, running max and
min folded from the accumulator, data points appended in order; the average
field is untouched by the loop. -/
theorem trendFoldl_spec (data : List AqiHistoryRecord) (acc : ℚ × Trends) :
    data.foldl trendStep acc =
      (acc.1 + (data.map fun p => p.aqi.value).sum,
       { averageAqi := acc.2.averageAqi,
         maxAqi := (data.map fun p => p.aqi.value).foldl max acc.2.maxAqi,
         minAqi := (data.map fun p => p.aqi.value).foldl minWT acc.2.minAqi,
         dataPoints := acc.2.dataPoints ++
           data.map fun p => ⟨p.recordedAt, p.aqi.value, p.aqi.category⟩ }) := by
  induction data generalizing acc with
  | nil => simp
  | cons p rest ih =>
    simp [List.foldl_cons, ih, trendStep, add_assoc]

/-- Folding `min` over rational values from a rational start stays at some
rational lower bound of the start and the values. -/
theorem foldl_min_coe_spec (vals : List ℚ) (a : ℚ) :
    ∃ v : ℚ, (v = a ∨ v ∈ vals) ∧
      vals.foldl minWT (a : WithTop ℚ) = (v : WithTop ℚ) ∧
      v ≤ a ∧ ∀ w ∈ vals, v ≤ w := by
  induction vals generalizing a with
  | nil => exact ⟨a, Or.inl rfl, rfl, le_refl a, by simp⟩
  | cons x xs ih =>
    obtain ⟨v, hv, heq, hle, hall⟩ := ih (min a x)
    refine ⟨v, ?_, ?_, ?_, ?_⟩
    · rcases hv with h1 | h1
      · rcases le_total a x with hax | hxa
        · exact Or.inl (by rw [h1, min_eq_left hax])
        · refine Or.inr ?_
          rw [h1, min_eq_right hxa]
          exact List.mem_cons_self x xs
      · exact Or.inr (List.mem_cons_of_mem x h1)
    · rw [List.foldl_cons,
        show minWT (a : WithTop ℚ) x = ((min a x : ℚ) : WithTop ℚ) from by
          simp [minWT, WithTop.coe_min]]
      exact heq
    · exact hle.trans (min_le_left a x)
    · intro w hw
      rcases List.mem_cons.mp hw with rfl | hw2
      · exact hle.trans (min_le_right a w)
      · exact hall w hw2

/-- Folding `min` from the `Infinity` sentinel over a non-empty list reaches
exactly the least value of the list: the sentinel is always replaced. -/
theorem foldl_min_top_spec (vals : List ℚ) (h : vals ≠ []) :
    ∃ v : ℚ, v ∈ vals ∧
      vals.foldl minWT ⊤ = (v : WithTop ℚ) ∧
      ∀ w ∈ vals, v ≤ w := by
  match vals, h with
  | x :: xs, _ =>
    obtain ⟨v, hv, heq, hle, hall⟩ := foldl_min_coe_spec xs x
    refine ⟨v, ?_, ?_, ?_⟩
    · rcases hv with rfl | h1
      · exact List.mem_cons_self v xs
      · exact List.mem_cons_of_mem x h1
    · rw [List.foldl_cons,
        show minWT (⊤ : WithTop ℚ) x = (x : WithTop ℚ) from min_eq_right le_top]
      exact heq
    · intro w hw
      rcases List.mem_cons.mp hw with rfl | hw2
      · exact hle
      · exact hall w hw2

/-- Folding `max` from a rational start yields an upper bound of the start
and of every value, reached either at the start itself or in the list. -/
theorem foldl_max_start_spec (vals : List ℚ) (a : ℚ) :
    (vals.foldl max a = a ∨ vals.foldl max a ∈ vals) ∧
    a ≤ vals.foldl max a ∧ ∀ w ∈ vals, w ≤ vals.foldl max a := by
  induction vals generalizing a with
  | nil => exact ⟨Or.inl rfl, le_refl a, by simp⟩
  | cons x xs ih =>
    obtain ⟨hv, hle, hall⟩ := ih (max a x)
    rw [List.foldl_cons]
    refine ⟨?_, ?_, ?_⟩
    · rcases hv with h1 | h1
      · rcases le_total a x with hax | hxa
        · refine Or.inr ?_
          rw [h1, max_eq_right hax]
          exact List.mem_cons_self x xs
        · exact Or.inl (by rw [h1, max_eq_left hxa])
      · exact Or.inr (List.mem_cons_of_mem x h1)
    · exact (le_max_left a x).trans hle
    · intro w hw
      rcases List.mem_cons.mp hw with rfl | hw2
      · exact (le_max_right a w).trans hle
      · exact hall w hw2

/-- `computeTrends` on a non-empty period, in closed form. -/
theorem computeTrends_nonempty (data : List AqiHistoryRecord) (h : data ≠ []) :
    computeTrends data =
      { averageAqi := ((data.map fun p => p.aqi.value).sum) / (data.length : ℚ),
        maxAqi := (data.map fun p => p.aqi.value).foldl max 0,
        minAqi := (data.map fun p => p.aqi.value).foldl minWT ⊤,
        dataPoints := data.map fun p => ⟨p.recordedAt, p.aqi.value, p.aqi.category⟩ } := by
  have hlen : 0 < data.length := List.length_pos.mpr h
  simp [computeTrends, hlen, trendFoldl_spec]

def cex10Rec : AqiHistoryRecord :=
  ⟨1, ⟨"L", 0, 0, false⟩, ⟨-1, "Good", "pm25", "WAQI"⟩, 0⟩

/-- Counterexample to C10: over a period holding a single reading of value
-1, the computed `maxAqi` is the fold's initial 0, not the exact maximum -1
of the readings' values. -/
theorem trend_max_counterexample :
    [cex10Rec].map (fun p => p.aqi.value) = [-1] ∧
    (computeTrends [cex10Rec]).maxAqi = 0 ∧
    (computeTrends [cex10Rec]).maxAqi ≠ -1 := by
  decide

/-- C10 amended: an empty period returns averageAqi 0, maxAqi 0, the never
replaced minAqi sentinel ⊤ (Infinity) and no data points; a non-empty period
returns the exact sum-over-count average, the exact minimum as minAqi, one
data point per record, and as maxAqi the maximum of 0 and the readings'
values — an upper bound of every reading that equals the exact maximum only
when that maximum is at least 0. -/
theorem trend_aggregates (data : List AqiHistoryRecord) :
    (data = [] → computeTrends data =
      { averageAqi := 0, maxAqi := 0, minAqi := ⊤, dataPoints := [] }) ∧
    (data ≠ [] →
      (computeTrends data).averageAqi =
        ((data.map fun p => p.aqi.value).sum) / (data.length : ℚ) ∧
      (computeTrends data).dataPoints =
        (data.map fun p => ⟨p.recordedAt, p.aqi.value, p.aqi.category⟩) ∧
      (∃ v : ℚ, v ∈ data.map (fun p => p.aqi.value) ∧
        (computeTrends data).minAqi = (v : WithTop ℚ) ∧
        ∀ w ∈ data.map (fun p => p.aqi.value), v ≤ w) ∧
      (0 ≤ (computeTrends data).maxAqi) ∧
      (∀ w ∈ data.map (fun p => p.aqi.value), w ≤ (computeTrends data).maxAqi) ∧
      ((computeTrends data).maxAqi = 0 ∨
        (computeTrends data).maxAqi ∈ data.map (fun p => p.aqi.value))) := by
  constructor
  · rintro rfl
    rfl
  · intro h
    have hm : data.map (fun p => p.aqi.value) ≠ [] := by
      simpa using h
    rw [computeTrends_nonempty data h]
    obtain ⟨v, hvmem, hveq, hvall⟩ :=
      foldl_min_top_spec (data.map fun p => p.aqi.value) hm
    obtain ⟨hmax, hzero, hmaxall⟩ :=
      foldl_max_start_spec (data.map fun p => p.aqi.value) 0
    exact ⟨rfl, rfl, ⟨v, hvmem, hveq, hvall⟩, hzero, hmaxall, hmax⟩

def w10Rec : AqiHistoryRecord :=
  ⟨1, ⟨"L", 0, 0, false⟩, ⟨7, "Good", "pm25", "WAQI"⟩, 2⟩

/-- Witness for the amended C10 on a one-record period. -/
theorem trend_aggregates_witness :
    (computeTrends [w10Rec]).averageAqi =
      (([w10Rec].map fun p => p.aqi.value).sum) / (([w10Rec] : List AqiHistoryRecord).length : ℚ) ∧
    (computeTrends [w10Rec]).dataPoints =
      ([w10Rec].map fun p => ⟨p.recordedAt, p.aqi.value, p.aqi.category⟩) ∧
    (∃ v : ℚ, v ∈ [w10Rec].map (fun p => p.aqi.value) ∧
      (computeTrends [w10Rec]).minAqi = (v : WithTop ℚ) ∧
      ∀ w ∈ [w10Rec].map (fun p => p.aqi.value), v ≤ w) ∧
    (0 ≤ (computeTrends [w10Rec]).maxAqi) ∧
    (∀ w ∈ [w10Rec].map (fun p => p.aqi.value),
      w ≤ (computeTrends [w10Rec]).maxAqi) ∧
    ((computeTrends [w10Rec]).maxAqi = 0 ∨
      (computeTrends [w10Rec]).maxAqi ∈ [w10Rec].map (fun p => p.aqi.value)) :=
  (trend_aggregates [w10Rec]).2 (by decide)

end AirAlert
